import Mathlib

/-!
Verification of the request-admission / rate-limiting component of the
design-comparison service (`gemini_service.py`), together with the parts of
`analyze_design_changes` and `get_rate_limit_status` that interact with it.

Time is modelled in whole seconds as `Nat`.  Python's
`(now - last_reset).days >= 1` holds exactly when at least 86400 seconds have
elapsed (for a non-negative difference), embedded as `last_reset + 86400 ≤ now`.
The pruning predicate `t > now - timedelta(minutes=1)` is embedded without
truncation as `now < t + 60`.
-/

namespace Gemini

/-- Rate limiting settings from `config.py` (`Config.REQUESTS_PER_MINUTE`). -/
def REQUESTS_PER_MINUTE : Nat := 15

/-- Rate limiting settings from `config.py` (`Config.REQUESTS_PER_DAY`). -/
def REQUESTS_PER_DAY : Nat := 1500

/-- The mutable rate-limiter state of `GeminiService`:
`self.request_times`, `self.daily_requests`, `self.last_reset`. -/
structure GateState where
  request_times : List Nat
  daily_requests : Nat
  last_reset : Nat
deriving Repr, DecidableEq

/-- `GeminiService.__init__`: `request_times = []`, `daily_requests = 0`,
`last_reset = datetime.now()` (the construction instant `t0`). -/
def initState (t0 : Nat) : GateState :=
  { request_times := [], daily_requests := 0, last_reset := t0 }

/-- The exact denial string for the daily limit (`gemini_service.py` line 29). -/
def dailyLimitMsg : String := "Daily API limit reached. Please try again tomorrow."

/-- The exact denial string for the per-minute limit (`gemini_service.py` line 36). -/
def minuteLimitMsg : String := "Rate limit exceeded. Please wait a minute."

/-- The list comprehension at line 33:
`[t for t in self.request_times if t > minute_ago]` with
`minute_ago = now - timedelta(minutes=1)`; `t > now - 60` is `now < t + 60`. -/
def pruneTimes (times : List Nat) (now : Nat) : List Nat :=
  times.filter (fun t => now < t + 60)

/-- The daily rollover step (lines 23-25):
`if (now - self.last_reset).days >= 1: self.daily_requests = 0;
self.last_reset = now`.  For instants with `now ≥ last_reset`, Python's
`.days >= 1` holds exactly when 86400 seconds have elapsed. -/
def rolled (s : GateState) (now : Nat) : GateState :=
  if s.last_reset + 86400 ≤ now then
    { s with daily_requests := 0, last_reset := now }
  else s

/-- `GeminiService._check_rate_limit`, embedded as a state transformer.
Returns the updated state together with the pair
`(can_proceed, error_msg)` the Python method returns.
The three stages mirror the source exactly: daily rollover (lines 23-25),
daily ceiling (lines 28-29), prune then per-minute ceiling (lines 32-36). -/
def check_rate_limit (s : GateState) (now : Nat) : GateState × Bool × Option String :=
  let s1 := rolled s now
  if REQUESTS_PER_DAY ≤ s1.daily_requests then
    (s1, false, some dailyLimitMsg)
  else
    let s2 := { s1 with request_times := pruneTimes s1.request_times now }
    if REQUESTS_PER_MINUTE ≤ s2.request_times.length then
      (s2, false, some minuteLimitMsg)
    else
      (s2, true, none)

/-- Outcome of one admission attempt (the spec's `AdmissionDecision`). -/
inductive AdmissionDecision where
  | admitted : AdmissionDecision
  | denied : String → AdmissionDecision
deriving Repr, DecidableEq

/-- The spec's `checkAndReserve`: the call to `_check_rate_limit` followed, on
admission, by the reservation at lines 67-69 of `analyze_design_changes`
(`self.request_times.append(datetime.now()); self.daily_requests += 1`).
`t1` is the instant `_check_rate_limit` reads; `t2` is the (possibly slightly
later) instant appended by the reservation. -/
def checkAndReserve (s : GateState) (t1 t2 : Nat) : GateState × AdmissionDecision :=
  match check_rate_limit s t1 with
  | (s', true, _) =>
      ({ s' with request_times := s'.request_times ++ [t2],
                 daily_requests := s'.daily_requests + 1 },
       .admitted)
  | (s', false, err) => (s', .denied (err.getD ""))

/-- The dictionary returned by `GeminiService.get_rate_limit_status`.
The Python method reads `self.request_times` through a fresh list
comprehension and assigns nothing, so it is embedded as a pure function of
the state. -/
structure RateLimitStatus where
  requests_per_minute_used : Nat
  requests_per_minute_limit : Nat
  daily_requests_used : Nat
  daily_requests_limit : Nat
  can_make_request : Bool
deriving Repr, DecidableEq

/-- `GeminiService.get_rate_limit_status` (lines 190-202). -/
def get_rate_limit_status (s : GateState) (now : Nat) : RateLimitStatus :=
  let recent_requests := (s.request_times.filter (fun t => now < t + 60)).length
  { requests_per_minute_used := recent_requests
    requests_per_minute_limit := REQUESTS_PER_MINUTE
    daily_requests_used := s.daily_requests
    daily_requests_limit := REQUESTS_PER_DAY
    can_make_request :=
      decide (recent_requests < REQUESTS_PER_MINUTE) &&
      decide (s.daily_requests < REQUESTS_PER_DAY) }

/-- `models.DesignChange`. -/
structure DesignChange where
  category : String
  description_en : String
  description_ar : String
  severity : String
  location : Option String
  action_required : Option String
deriving Repr, DecidableEq

/-- `models.AnalysisData`.  `similarity_score` is a number in the source
(a float); only the integer literal `0` ever appears in the code paths the
claims concern, so it is embedded as `Int`. -/
structure AnalysisData where
  similarity_score : Int
  summary_en : String
  summary_ar : String
  changes_detected : List DesignChange
  designer_notes_en : List String
  designer_notes_ar : List String
  next_steps_en : List String
  next_steps_ar : List String
  analysis_id : Option String
deriving Repr, DecidableEq

/-- `models.AnalysisResponse`; `timestamp` is the `datetime.now()` instant
baked into the response. -/
structure AnalysisResponse where
  success : Bool
  timestamp : Nat
  data : AnalysisData
  error : Option String
deriving Repr, DecidableEq

/-- The all-zero `AnalysisData` literal that `analyze_design_changes`
constructs on the denial path (lines 54-63) and on both exception paths
(lines 161-170 and 177-186): `similarity_score=0`, empty strings, empty
lists, and `analysis_id` left at its `None` default. -/
def zeroAnalysisData : AnalysisData :=
  { similarity_score := 0, summary_en := "", summary_ar := ""
    changes_detected := [], designer_notes_en := [], designer_notes_ar := []
    next_steps_en := [], next_steps_ar := [], analysis_id := none }

/-- The fate of the external Gemini call and of the JSON parse of its reply,
which are outside this repository: either the reply parses into an
`AnalysisData` (the success path of lines 142-155), or `json.loads` raises
`JSONDecodeError` with message `m` (line 157), or some other exception with
message `m` is raised (line 173). -/
inductive ApiOutcome where
  | parsed : AnalysisData → ApiOutcome
  | jsonError : String → ApiOutcome
  | otherError : String → ApiOutcome
deriving Repr, DecidableEq

/-- `GeminiService.analyze_design_changes` (lines 40-188), with the prompt
construction and the actual network call abstracted by `outcome`.
`t1` is the `datetime.now()` read inside `_check_rate_limit`; `t2` the
`datetime.now()` of the next call to the clock (the denial response's
timestamp at line 53, or the appended reservation timestamp at line 68);
`t3` the `datetime.now()` stamped on the post-call response (lines 144,
160, 176).  Returns the service state after the call together with the
`AnalysisResponse`. -/
def analyze_design_changes (s : GateState) (t1 t2 t3 : Nat)
    (outcome : ApiOutcome) : GateState × AnalysisResponse :=
  match check_rate_limit s t1 with
  | (s', false, err) =>
      (s', { success := false, timestamp := t2, data := zeroAnalysisData,
             error := err })
  | (s', true, _) =>
      let s2 : GateState :=
        { s' with request_times := s'.request_times ++ [t2],
                  daily_requests := s'.daily_requests + 1 }
      match outcome with
      | .parsed d =>
          (s2, { success := true, timestamp := t3, data := d, error := none })
      | .jsonError m =>
          (s2, { success := false, timestamp := t3, data := zeroAnalysisData,
                 error := some ("Failed to parse AI response: " ++ m) })
      | .otherError m =>
          (s2, { success := false, timestamp := t3, data := zeroAnalysisData,
                 error := some ("Analysis failed: " ++ m) })

/-! ### Basic lemmas about the embedded operations -/

theorem rolled_request_times (s : GateState) (now : Nat) :
    (rolled s now).request_times = s.request_times := by
  unfold rolled; split <;> rfl

theorem rolled_daily_le (s : GateState) (now : Nat) :
    (rolled s now).daily_requests ≤ s.daily_requests := by
  unfold rolled; split <;> simp

theorem pruneTimes_length_le (l : List Nat) (now : Nat) :
    (pruneTimes l now).length ≤ l.length :=
  List.length_filter_le _ _

theorem pruneTimes_idem (l : List Nat) (now : Nat) :
    pruneTimes (pruneTimes l now) now = pruneTimes l now := by
  simp [pruneTimes, List.filter_filter]

theorem pruneTimes_sublist (l : List Nat) (now : Nat) :
    (pruneTimes l now).Sublist l :=
  List.filter_sublist l

/-- Trichotomy over the three exit points of `_check_rate_limit`. -/
theorem check_rate_limit_cases (s : GateState) (now : Nat) :
    (REQUESTS_PER_DAY ≤ (rolled s now).daily_requests ∧
      check_rate_limit s now = (rolled s now, false, some dailyLimitMsg)) ∨
    ((rolled s now).daily_requests < REQUESTS_PER_DAY ∧
      REQUESTS_PER_MINUTE ≤ (pruneTimes s.request_times now).length ∧
      check_rate_limit s now =
        ({ rolled s now with request_times := pruneTimes s.request_times now },
          false, some minuteLimitMsg)) ∨
    ((rolled s now).daily_requests < REQUESTS_PER_DAY ∧
      (pruneTimes s.request_times now).length < REQUESTS_PER_MINUTE ∧
      check_rate_limit s now =
        ({ rolled s now with request_times := pruneTimes s.request_times now },
          true, none)) := by
  by_cases h1 : REQUESTS_PER_DAY ≤ (rolled s now).daily_requests
  · exact Or.inl ⟨h1, by simp [check_rate_limit, h1]⟩
  · by_cases h2 : REQUESTS_PER_MINUTE ≤ (pruneTimes s.request_times now).length
    · exact Or.inr (Or.inl ⟨Nat.lt_of_not_le h1, h2,
        by simp [check_rate_limit, rolled_request_times, h1, h2]⟩)
    · exact Or.inr (Or.inr ⟨Nat.lt_of_not_le h1, Nat.lt_of_not_le h2,
        by simp [check_rate_limit, rolled_request_times, h1, h2]⟩)

theorem rolled_eq_self_of_not_due (s : GateState) (now : Nat)
    (h : ¬ s.last_reset + 86400 ≤ now) : rolled s now = s := by
  simp [rolled, h]

/-- After the rollover step has run at instant `now`, a second rollover at the
same instant is never due. -/
theorem rolled_not_due (s : GateState) (now : Nat) :
    ¬ ((rolled s now).last_reset + 86400 ≤ now) := by
  by_cases h : s.last_reset + 86400 ≤ now
  · simp only [rolled, if_pos h]; omega
  · simpa [rolled, if_neg h] using h

/-- Trichotomy over the outcomes of `checkAndReserve`. -/
theorem checkAndReserve_cases (s : GateState) (t1 t2 : Nat) :
    (REQUESTS_PER_DAY ≤ (rolled s t1).daily_requests ∧
      checkAndReserve s t1 t2 = (rolled s t1, .denied dailyLimitMsg)) ∨
    ((rolled s t1).daily_requests < REQUESTS_PER_DAY ∧
      REQUESTS_PER_MINUTE ≤ (pruneTimes s.request_times t1).length ∧
      checkAndReserve s t1 t2 =
        ({ rolled s t1 with request_times := pruneTimes s.request_times t1 },
          .denied minuteLimitMsg)) ∨
    ((rolled s t1).daily_requests < REQUESTS_PER_DAY ∧
      (pruneTimes s.request_times t1).length < REQUESTS_PER_MINUTE ∧
      checkAndReserve s t1 t2 =
        ({ rolled s t1 with
            request_times := pruneTimes s.request_times t1 ++ [t2],
            daily_requests := (rolled s t1).daily_requests + 1 },
          .admitted)) := by
  rcases check_rate_limit_cases s t1 with ⟨h1, heq⟩ | ⟨h1, h2, heq⟩ | ⟨h1, h2, heq⟩
  · exact Or.inl ⟨h1, by simp [checkAndReserve, heq, dailyLimitMsg]⟩
  · exact Or.inr (Or.inl ⟨h1, h2, by simp [checkAndReserve, heq, minuteLimitMsg]⟩)
  · exact Or.inr (Or.inr ⟨h1, h2, by simp [checkAndReserve, heq]⟩)

/-- When the per-minute window is saturated (after rollover and pruning the
daily budget is fine but 15 or more timestamps remain), `checkAndReserve`
denies with the per-minute message and only prunes. -/
theorem checkAndReserve_minute_denied (s : GateState) (t1 t2 : Nat)
    (h1 : (rolled s t1).daily_requests < REQUESTS_PER_DAY)
    (h2 : REQUESTS_PER_MINUTE ≤ (pruneTimes s.request_times t1).length) :
    checkAndReserve s t1 t2 =
      ({ rolled s t1 with request_times := pruneTimes s.request_times t1 },
        .denied minuteLimitMsg) := by
  rcases checkAndReserve_cases s t1 t2 with ⟨h1', _⟩ | ⟨_, _, heq⟩ | ⟨_, h2', _⟩
  · exact absurd h1' (Nat.not_le.mpr h1)
  · exact heq
  · exact absurd h2 (Nat.not_le.mpr h2')

/-- When both ceilings have room after rollover and pruning, `checkAndReserve`
admits, appends `t2` and increments the daily counter. -/
theorem checkAndReserve_admitted (s : GateState) (t1 t2 : Nat)
    (h1 : (rolled s t1).daily_requests < REQUESTS_PER_DAY)
    (h2 : (pruneTimes s.request_times t1).length < REQUESTS_PER_MINUTE) :
    checkAndReserve s t1 t2 =
      ({ rolled s t1 with
          request_times := pruneTimes s.request_times t1 ++ [t2],
          daily_requests := (rolled s t1).daily_requests + 1 },
        .admitted) := by
  rcases checkAndReserve_cases s t1 t2 with ⟨h1', _⟩ | ⟨_, h2', _⟩ | ⟨_, _, heq⟩
  · exact absurd h1' (Nat.not_le.mpr h1)
  · exact absurd h2' (Nat.not_le.mpr h2)
  · exact heq

/-- All entries of an all-`now` list survive the 60-second pruning. -/
theorem filter_window_replicate (k now : Nat) :
    (List.replicate k now).filter (fun t => decide (now < t + 60))
      = List.replicate k now := by
  apply List.filter_eq_self.mpr
  intro a ha
  rw [List.eq_of_mem_replicate ha]
  simp

theorem pruneTimes_replicate (k now : Nat) :
    pruneTimes (List.replicate k now) now = List.replicate k now := by
  simp [pruneTimes, filter_window_replicate k now]

/-- Iterated `checkAndReserve` calls, all sharing one clock instant `now`
for both the check and the reservation (the scenario of the spec's worked
example: sixteen calls within the same second). -/
def runCalls (s : GateState) (now : Nat) : Nat → GateState
  | 0 => s
  | n + 1 => (checkAndReserve (runCalls s now n) now now).1

/-- The concrete state after `k ≤ 15` same-instant calls from a fresh
service: `k` copies of `now`, a daily count of `k`, an untouched window
start. -/
theorem runCalls_initState (t0 now : Nat) (hnr : ¬ t0 + 86400 ≤ now) :
    ∀ k, k ≤ 15 → runCalls (initState t0) now k
      = ⟨List.replicate k now, k, t0⟩ := by
  intro k
  induction k with
  | zero => intro _; rfl
  | succ k ih =>
    intro hk
    have hstate := ih (Nat.le_of_succ_le hk)
    show (checkAndReserve (runCalls (initState t0) now k) now now).1 = _
    rw [hstate]
    have hr : rolled ⟨List.replicate k now, k, t0⟩ now
        = ⟨List.replicate k now, k, t0⟩ :=
      rolled_eq_self_of_not_due _ now hnr
    have h1 : (rolled ⟨List.replicate k now, k, t0⟩ now).daily_requests
        < REQUESTS_PER_DAY := by
      rw [hr]; show k < 1500; omega
    have h2 : (pruneTimes (GateState.mk (List.replicate k now) k t0).request_times now).length
        < REQUESTS_PER_MINUTE := by
      show (pruneTimes (List.replicate k now) now).length < 15
      rw [pruneTimes_replicate, List.length_replicate]
      omega
    rw [checkAndReserve_admitted _ _ _ h1 h2, hr]
    show GateState.mk (pruneTimes (List.replicate k now) now ++ [now]) (k + 1) t0 = _
    rw [pruneTimes_replicate, ← List.replicate_succ']

/-! ### Claim theorems -/

/-- C1: with `perMinuteLimit = 15`, starting from a fresh service at any
window start `t0` and issuing calls at any instant `now` inside the first
daily window, calls 1..15 are all admitted and the status snapshot after the
i-th shows `requests_per_minute_used = i`; the 16-th call at the same
instant (all fifteen recorded timestamps still inside the trailing
60-second window) is denied with exactly
"Rate limit exceeded. Please wait a minute.". -/
theorem per_minute_ceiling (t0 now : Nat) (hday : now < t0 + 86400) :
    (∀ i, i < 15 →
      (checkAndReserve (runCalls (initState t0) now i) now now).2 = .admitted ∧
      (get_rate_limit_status (runCalls (initState t0) now (i + 1)) now).requests_per_minute_used
        = i + 1) ∧
    (checkAndReserve (runCalls (initState t0) now 15) now now).2
      = .denied "Rate limit exceeded. Please wait a minute." := by
  have hnr : ¬ t0 + 86400 ≤ now := by omega
  constructor
  · intro i hi
    have hs := runCalls_initState t0 now hnr i (Nat.le_of_lt hi)
    have hs1 := runCalls_initState t0 now hnr (i + 1) hi
    have hr : rolled ⟨List.replicate i now, i, t0⟩ now
        = ⟨List.replicate i now, i, t0⟩ :=
      rolled_eq_self_of_not_due _ now hnr
    have h1 : (rolled ⟨List.replicate i now, i, t0⟩ now).daily_requests
        < REQUESTS_PER_DAY := by
      rw [hr]; show i < 1500; omega
    have h2 : (pruneTimes (GateState.mk (List.replicate i now) i t0).request_times now).length
        < REQUESTS_PER_MINUTE := by
      show (pruneTimes (List.replicate i now) now).length < 15
      rw [pruneTimes_replicate, List.length_replicate]
      omega
    refine ⟨?_, ?_⟩
    · rw [hs, checkAndReserve_admitted _ _ _ h1 h2]
    · rw [hs1]
      show ((List.replicate (i + 1) now).filter (fun t => decide (now < t + 60))).length
        = i + 1
      rw [filter_window_replicate, List.length_replicate]
  · have hs := runCalls_initState t0 now hnr 15 (Nat.le_refl 15)
    have hr : rolled ⟨List.replicate 15 now, 15, t0⟩ now
        = ⟨List.replicate 15 now, 15, t0⟩ :=
      rolled_eq_self_of_not_due _ now hnr
    have h1 : (rolled ⟨List.replicate 15 now, 15, t0⟩ now).daily_requests
        < REQUESTS_PER_DAY := by
      rw [hr]; show (15 : Nat) < 1500; omega
    have h2 : REQUESTS_PER_MINUTE
        ≤ (pruneTimes (GateState.mk (List.replicate 15 now) 15 t0).request_times now).length := by
      show (15 : Nat) ≤ (pruneTimes (List.replicate 15 now) now).length
      rw [pruneTimes_replicate, List.length_replicate]
    rw [hs, checkAndReserve_minute_denied _ _ _ h1 h2]
    rfl

/-- Witness for C1: the worked example with `t0 = 0`, all sixteen calls at
instant `now = 0`: call 5 is admitted with the status showing 5 used, and
call 16 is denied with the exact per-minute message. -/
theorem per_minute_ceiling_witness :
    ((checkAndReserve (runCalls (initState 0) 0 4) 0 0).2 = .admitted ∧
      (get_rate_limit_status (runCalls (initState 0) 0 5) 0).requests_per_minute_used = 5) ∧
    (checkAndReserve (runCalls (initState 0) 0 15) 0 0).2
      = .denied "Rate limit exceeded. Please wait a minute." :=
  ⟨(per_minute_ceiling 0 0 (by decide)).1 4 (by decide),
   (per_minute_ceiling 0 0 (by decide)).2⟩

/-- C2: for every state in which `dailyCount >= perDayLimit` at the moment of
a `checkAndReserve` call and no 24-hour rollover is due, the call returns
`Denied` with the daily-limit reason regardless of how many per-minute slots
remain: the daily ceiling check is evaluated strictly before the per-minute
check (the state, in particular `request_times`, is entirely unconstrained,
and the state is returned unchanged, unpruned). -/
theorem daily_check_dominates (s : GateState) (now t2 : Nat)
    (hnr : ¬ s.last_reset + 86400 ≤ now)
    (hd : REQUESTS_PER_DAY ≤ s.daily_requests) :
    checkAndReserve s now t2 = (s, .denied dailyLimitMsg) := by
  have hr : rolled s now = s := rolled_eq_self_of_not_due s now hnr
  rcases checkAndReserve_cases s now t2 with ⟨h1, heq⟩ | ⟨h1, _, _⟩ | ⟨h1, _, _⟩
  · rw [heq, hr]
  · rw [hr] at h1; exact absurd hd (Nat.not_le.mpr h1)
  · rw [hr] at h1; exact absurd hd (Nat.not_le.mpr h1)

/-- Witness for C2: a fresh-window state with 1500 daily requests and an
empty per-minute window is denied with the daily reason. -/
theorem daily_check_dominates_witness :
    checkAndReserve ⟨[], 1500, 0⟩ 0 0 = (⟨[], 1500, 0⟩, .denied dailyLimitMsg) :=
  daily_check_dominates ⟨[], 1500, 0⟩ 0 0 (by decide) (by decide)

/-- C4: a `checkAndReserve` call that returns `Denied` (for either reason)
never increments `dailyCount` and never appends to `requestTimestamps`
(the resulting timestamp list is a sublist of the original), and an
immediately following call at the same instant is denied identically,
leaving the state unchanged, so two consecutive denied calls at the same
instant produce identical status snapshots. -/
theorem denied_no_mutation (s : GateState) (now t2 t3 : Nat) (msg : String)
    (h : (checkAndReserve s now t2).2 = .denied msg) :
    (checkAndReserve s now t2).1.daily_requests ≤ s.daily_requests ∧
    (checkAndReserve s now t2).1.request_times.Sublist s.request_times ∧
    checkAndReserve ((checkAndReserve s now t2).1) now t3
      = ((checkAndReserve s now t2).1, .denied msg) ∧
    get_rate_limit_status (checkAndReserve ((checkAndReserve s now t2).1) now t3).1 now
      = get_rate_limit_status ((checkAndReserve s now t2).1) now := by
  rcases checkAndReserve_cases s now t2 with ⟨h1, heq⟩ | ⟨h1, h2, heq⟩ | ⟨h1, h2, heq⟩
  · -- denied at the daily stage: the rollover cannot have fired
    have hnr : ¬ s.last_reset + 86400 ≤ now := by
      intro hc
      have h0 : REQUESTS_PER_DAY ≤ 0 := by simpa [rolled, hc] using h1
      simp [REQUESTS_PER_DAY] at h0
    have hr : rolled s now = s := rolled_eq_self_of_not_due s now hnr
    rw [hr] at heq h1
    have hmsg : msg = dailyLimitMsg := by
      rw [heq] at h
      exact (AdmissionDecision.denied.injEq .. ▸ h).symm
    subst hmsg
    have hsecond : checkAndReserve s now t3 = (s, .denied dailyLimitMsg) := by
      rcases checkAndReserve_cases s now t3 with ⟨_, heq'⟩ | ⟨h1', _, _⟩ | ⟨h1', _, _⟩
      · rw [heq', hr]
      · rw [hr] at h1'; exact absurd h1 (Nat.not_le.mpr h1')
      · rw [hr] at h1'; exact absurd h1 (Nat.not_le.mpr h1')
    rw [heq]
    exact ⟨le_refl _, List.Sublist.refl _, hsecond, by rw [hsecond]⟩
  · -- denied at the per-minute stage: the state was pruned but nothing else
    have hmsg : msg = minuteLimitMsg := by
      rw [heq] at h
      exact (AdmissionDecision.denied.injEq .. ▸ h).symm
    subst hmsg
    rw [heq]
    set post : GateState :=
      { rolled s now with request_times := pruneTimes s.request_times now } with hpost
    have hnr2 : ¬ post.last_reset + 86400 ≤ now := rolled_not_due s now
    have hr2 : rolled post now = post := rolled_eq_self_of_not_due post now hnr2
    have hprune : pruneTimes post.request_times now = post.request_times :=
      pruneTimes_idem s.request_times now
    have hsecond : checkAndReserve post now t3 = (post, .denied minuteLimitMsg) := by
      rcases checkAndReserve_cases post now t3 with
        ⟨h1', heq'⟩ | ⟨h1', h2', heq'⟩ | ⟨h1', h2', heq'⟩
      · rw [hr2] at h1'
        exact absurd h1' (Nat.not_le.mpr h1)
      · rw [heq', hr2, hprune]
      · rw [hprune] at h2'
        exact absurd h2 (Nat.not_le.mpr h2')
    refine ⟨rolled_daily_le s now, ?_, hsecond, by rw [hsecond]⟩
    exact pruneTimes_sublist s.request_times now
  · -- admitted: contradicts the denial hypothesis
    rw [heq] at h
    exact absurd h (by simp)

/-- Witness for C4: a per-minute-saturated state is denied without mutation,
and a second denial at the same instant leaves the state and the status
snapshot unchanged. -/
theorem denied_no_mutation_witness :
    (checkAndReserve ⟨List.replicate 15 40, 20, 0⟩ 41 41).1.daily_requests ≤ 20 ∧
    (checkAndReserve ⟨List.replicate 15 40, 20, 0⟩ 41 41).1.request_times.Sublist
      (List.replicate 15 40) ∧
    checkAndReserve ((checkAndReserve ⟨List.replicate 15 40, 20, 0⟩ 41 41).1) 41 42
      = ((checkAndReserve ⟨List.replicate 15 40, 20, 0⟩ 41 41).1,
         .denied minuteLimitMsg) ∧
    get_rate_limit_status
        (checkAndReserve ((checkAndReserve ⟨List.replicate 15 40, 20, 0⟩ 41 41).1) 41 42).1 41
      = get_rate_limit_status ((checkAndReserve ⟨List.replicate 15 40, 20, 0⟩ 41 41).1) 41 :=
  denied_no_mutation ⟨List.replicate 15 40, 20, 0⟩ 41 41 42 minuteLimitMsg (by decide)

/-- Counterexample for C6: a state whose rollover is due (`last_reset = 0`,
call at `now = 86400`) and whose daily counter is exhausted (`1500`), but
whose per-minute window holds 15 fresh timestamps.  The rollover fires, yet
the call is NOT admitted (it is denied at the per-minute stage) and the
daily counter afterwards is 0, not 1. -/
theorem daily_rollover_cex :
    (0 : Nat) + 86400 ≤ 86400 ∧
    REQUESTS_PER_DAY ≤ (GateState.mk (List.replicate 15 86400) 1500 0).daily_requests ∧
    (checkAndReserve ⟨List.replicate 15 86400, 1500, 0⟩ 86400 86400).2 ≠ .admitted ∧
    (checkAndReserve ⟨List.replicate 15 86400, 1500, 0⟩ 86400 86400).1.daily_requests ≠ 1 := by
  decide

/-- C6 (amended): the daily rollover (`dailyCount` reset to 0, `windowStart`
advanced to `now`) happens during a check exactly when 24 hours have elapsed
since `windowStart`; after such a rollover a call that would otherwise be
denied for daily-limit reasons is admitted PROVIDED fewer than 15 recorded
timestamps survive pruning, and `dailyCount` equals 1 after that call. -/
theorem daily_rollover :
    (∀ (s : GateState) (now : Nat), ¬ s.last_reset + 86400 ≤ now →
      (check_rate_limit s now).1.last_reset = s.last_reset ∧
      (check_rate_limit s now).1.daily_requests = s.daily_requests) ∧
    (∀ (s : GateState) (now : Nat), s.last_reset + 86400 ≤ now →
      (check_rate_limit s now).1.last_reset = now ∧
      (check_rate_limit s now).1.daily_requests = 0) ∧
    (∀ (s : GateState) (now t2 : Nat), s.last_reset + 86400 ≤ now →
      REQUESTS_PER_DAY ≤ s.daily_requests →
      (pruneTimes s.request_times now).length < REQUESTS_PER_MINUTE →
      (checkAndReserve s now t2).2 = .admitted ∧
      (checkAndReserve s now t2).1.daily_requests = 1 ∧
      (checkAndReserve s now t2).1.last_reset = now) := by
  refine ⟨?_, ?_, ?_⟩
  · intro s now hnr
    have hr : rolled s now = s := rolled_eq_self_of_not_due s now hnr
    rcases check_rate_limit_cases s now with ⟨_, heq⟩ | ⟨_, _, heq⟩ | ⟨_, _, heq⟩ <;>
      rw [heq, hr] <;> exact ⟨rfl, rfl⟩
  · intro s now hroll
    have hr : rolled s now = { s with daily_requests := 0, last_reset := now } := by
      simp [rolled, hroll]
    rcases check_rate_limit_cases s now with ⟨h1, heq⟩ | ⟨_, _, heq⟩ | ⟨_, _, heq⟩
    · rw [hr] at h1
      have h1' : (1500 : Nat) ≤ 0 := h1
      omega
    · rw [heq, hr]; exact ⟨rfl, rfl⟩
    · rw [heq, hr]; exact ⟨rfl, rfl⟩
  · intro s now t2 hroll hday hmin
    have hr : rolled s now = { s with daily_requests := 0, last_reset := now } := by
      simp [rolled, hroll]
    have h1 : (rolled s now).daily_requests < REQUESTS_PER_DAY := by
      rw [hr]; show (0 : Nat) < 1500; omega
    rw [checkAndReserve_admitted s now t2 h1 hmin]
    refine ⟨rfl, ?_, ?_⟩
    · show (rolled s now).daily_requests + 1 = 1
      rw [hr]
    · show (rolled s now).last_reset = now
      rw [hr]

/-- Witness for C6: the no-rollover case preserves the counters, the
rollover case resets them, and an exhausted-daily state with a free
per-minute window is admitted after rollover with a daily count of 1. -/
theorem daily_rollover_witness :
    ((check_rate_limit ⟨[], 7, 0⟩ 100).1.last_reset = 0 ∧
      (check_rate_limit ⟨[], 7, 0⟩ 100).1.daily_requests = 7) ∧
    ((check_rate_limit ⟨[], 7, 0⟩ 86400).1.last_reset = 86400 ∧
      (check_rate_limit ⟨[], 7, 0⟩ 86400).1.daily_requests = 0) ∧
    ((checkAndReserve ⟨[], 1500, 0⟩ 86400 86400).2 = .admitted ∧
      (checkAndReserve ⟨[], 1500, 0⟩ 86400 86400).1.daily_requests = 1 ∧
      (checkAndReserve ⟨[], 1500, 0⟩ 86400 86400).1.last_reset = 86400) :=
  ⟨daily_rollover.1 ⟨[], 7, 0⟩ 100 (by decide),
   daily_rollover.2.1 ⟨[], 7, 0⟩ 86400 (by decide),
   daily_rollover.2.2 ⟨[], 1500, 0⟩ 86400 86400 (by decide) (by decide) (by decide)⟩

/-- Counterexample for C7: a check denied at the daily stage returns before
the pruning step, so it completes while `requestTimestamps` still holds the
instant 0, which lies outside the trailing window `[now - 60, now] = [40, 100]`. -/
theorem window_prune_cex :
    (check_rate_limit ⟨[0], 1500, 0⟩ 100).2.1 = false ∧
    (check_rate_limit ⟨[0], 1500, 0⟩ 100).1.request_times = [0] ∧
    (0 : Nat) + 60 ≤ 100 := by
  decide

/-- C7 (amended): every check that is not denied at the daily stage prunes
`requestTimestamps` before counting, so at the moment such a check completes
every retained timestamp `t` satisfies `now - 60 < t` and was already
recorded before the call; and once the per-minute ceiling is hit (15
recorded timestamps), if some recorded timestamp has fallen out of the
trailing 60-second window the next call is admitted. -/
theorem window_slide :
    (∀ (s : GateState) (now : Nat),
      (check_rate_limit s now).2.2 ≠ some dailyLimitMsg →
      ∀ t ∈ (check_rate_limit s now).1.request_times,
        now < t + 60 ∧ t ∈ s.request_times) ∧
    (∀ (s : GateState) (now t2 : Nat),
      s.daily_requests < REQUESTS_PER_DAY →
      s.request_times.length = REQUESTS_PER_MINUTE →
      (∃ t ∈ s.request_times, t + 60 ≤ now) →
      (checkAndReserve s now t2).2 = .admitted) := by
  constructor
  · intro s now hne t ht
    rcases check_rate_limit_cases s now with ⟨_, heq⟩ | ⟨_, _, heq⟩ | ⟨_, _, heq⟩
    · rw [heq] at hne
      simp at hne
    · rw [heq] at ht
      replace ht : t ∈ s.request_times.filter (fun x => decide (now < x + 60)) := ht
      have := List.mem_filter.mp ht
      exact ⟨by simpa using this.2, this.1⟩
    · rw [heq] at ht
      replace ht : t ∈ s.request_times.filter (fun x => decide (now < x + 60)) := ht
      have := List.mem_filter.mp ht
      exact ⟨by simpa using this.2, this.1⟩
  · rintro s now t2 hdaily hlen ⟨t, htmem, ht⟩
    have h1 : (rolled s now).daily_requests < REQUESTS_PER_DAY := by
      unfold rolled
      split
      · show (0 : Nat) < REQUESTS_PER_DAY; decide
      · exact hdaily
    have h2 : (pruneTimes s.request_times now).length < REQUESTS_PER_MINUTE := by
      rw [← hlen]
      apply List.length_filter_lt_length_iff_exists.mpr
      exact ⟨t, htmem, by simpa using ht⟩
    rw [checkAndReserve_admitted s now t2 h1 h2]

/-- Witness for C7: a non-daily-denied check at `now = 100` retains the
in-window timestamp 50 (and 50 was recorded before the call); a saturated
window whose member 0 has expired by `now = 61` admits the next call. -/
theorem window_slide_witness :
    ((100 : Nat) < 50 + 60 ∧ (50 : Nat) ∈ (GateState.mk [50, 0] 3 0).request_times) ∧
    (checkAndReserve ⟨List.replicate 15 0, 3, 0⟩ 61 61).2 = .admitted :=
  ⟨window_slide.1 ⟨[50, 0], 3, 0⟩ 100 (by decide) 50 (by decide),
   window_slide.2 ⟨List.replicate 15 0, 3, 0⟩ 61 61 (by decide) (by decide)
     ⟨0, by decide, by decide⟩⟩

/-- States reachable from service construction (`__init__` at any instant)
through any sequence of `checkAndReserve` calls at arbitrary instants. -/
inductive Reachable : GateState → Prop where
  | init : ∀ t0, Reachable (initState t0)
  | step : ∀ (s : GateState) (t1 t2 : Nat), Reachable s →
      Reachable (checkAndReserve s t1 t2).1

/-- One `checkAndReserve` call preserves the ceiling bounds. -/
theorem step_bounds (s : GateState) (t1 t2 : Nat)
    (hd : s.daily_requests ≤ REQUESTS_PER_DAY)
    (hl : s.request_times.length ≤ REQUESTS_PER_MINUTE) :
    (checkAndReserve s t1 t2).1.daily_requests ≤ REQUESTS_PER_DAY ∧
    (checkAndReserve s t1 t2).1.request_times.length ≤ REQUESTS_PER_MINUTE := by
  rcases checkAndReserve_cases s t1 t2 with ⟨h1, heq⟩ | ⟨h1, h2, heq⟩ | ⟨h1, h2, heq⟩
  · rw [heq]
    refine ⟨Nat.le_trans (rolled_daily_le s t1) hd, ?_⟩
    rw [rolled_request_times]
    exact hl
  · rw [heq]
    constructor
    · show (rolled s t1).daily_requests ≤ REQUESTS_PER_DAY
      exact Nat.le_trans (rolled_daily_le s t1) hd
    · show (pruneTimes s.request_times t1).length ≤ REQUESTS_PER_MINUTE
      exact Nat.le_trans (pruneTimes_length_le _ _) hl
  · rw [heq]
    constructor
    · show (rolled s t1).daily_requests + 1 ≤ REQUESTS_PER_DAY
      exact h1
    · show (pruneTimes s.request_times t1 ++ [t2]).length ≤ REQUESTS_PER_MINUTE
      rw [List.length_append]
      have h2' : (pruneTimes s.request_times t1).length < 15 := h2
      show _ ≤ 15
      simp only [List.length_cons, List.length_nil]
      omega

/-- Every reachable state respects both ceilings. -/
theorem reachable_bounds (s : GateState) (h : Reachable s) :
    s.daily_requests ≤ REQUESTS_PER_DAY ∧
    s.request_times.length ≤ REQUESTS_PER_MINUTE := by
  induction h with
  | init t0 => exact ⟨Nat.zero_le _, Nat.zero_le _⟩
  | step s t1 t2 _ ih => exact step_bounds s t1 t2 ih.1 ih.2

/-- C8: starting from the initial state (zero counters), at the instant any
`checkAndReserve` decision is returned `dailyCount` never exceeds the daily
ceiling and `len(requestTimestamps)` never exceeds the per-minute ceiling,
where the configured constants are fixed at `perMinuteLimit = 15` and
`perDayLimit = 1500`. -/
theorem invariant_ceilings (s : GateState) (h : Reachable s) (t1 t2 : Nat) :
    (checkAndReserve s t1 t2).1.daily_requests ≤ REQUESTS_PER_DAY ∧
    (checkAndReserve s t1 t2).1.request_times.length ≤ REQUESTS_PER_MINUTE ∧
    REQUESTS_PER_MINUTE = 15 ∧ REQUESTS_PER_DAY = 1500 := by
  have hb := reachable_bounds s h
  have hs := step_bounds s t1 t2 hb.1 hb.2
  exact ⟨hs.1, hs.2, rfl, rfl⟩

/-- Witness for C8: a freshly constructed service after one call. -/
theorem invariant_ceilings_witness :
    (checkAndReserve (initState 5) 10 10).1.daily_requests ≤ REQUESTS_PER_DAY ∧
    (checkAndReserve (initState 5) 10 10).1.request_times.length ≤ REQUESTS_PER_MINUTE ∧
    REQUESTS_PER_MINUTE = 15 ∧ REQUESTS_PER_DAY = 1500 :=
  invariant_ceilings (initState 5) (Reachable.init 5) 10 10

/-- Counterexample for C5: with `windowStart = 0`, an exhausted daily
counter and an empty window, polling status at `now = 86400` reports
`can_make_request = false`, yet an immediately following `checkAndReserve`
at the same instant rolls the day over and is admitted — and the snapshot
applies no rollover and no pruning side effect at all. -/
theorem status_snapshot_cex :
    (get_rate_limit_status ⟨[], 1500, 0⟩ 86400).can_make_request = false ∧
    (checkAndReserve ⟨[], 1500, 0⟩ 86400 86400).2 = .admitted := by
  decide

/-- C5 (amended): `get_rate_limit_status` mutates nothing (it recounts the
window through a fresh list comprehension) and applies no daily rollover;
it reports `can_make_request = usedThisMinute < perMinuteLimit AND
usedToday < perDayLimit`, counting with the same window predicate as the
check's pruning, so whenever no 24-hour rollover is due at that instant,
`can_make_request` is true if and only if an immediately following
`checkAndReserve` would be admitted. -/
theorem status_matches_check (s : GateState) (now t2 : Nat)
    (hnr : ¬ s.last_reset + 86400 ≤ now) :
    ((get_rate_limit_status s now).can_make_request = true
      ↔ (checkAndReserve s now t2).2 = .admitted) ∧
    (get_rate_limit_status s now).can_make_request
      = (decide ((get_rate_limit_status s now).requests_per_minute_used
            < (get_rate_limit_status s now).requests_per_minute_limit)
        && decide ((get_rate_limit_status s now).daily_requests_used
            < (get_rate_limit_status s now).daily_requests_limit)) := by
  have hr : rolled s now = s := rolled_eq_self_of_not_due s now hnr
  refine ⟨?_, rfl⟩
  constructor
  · intro hcan
    have hconds : (s.request_times.filter (fun t => decide (now < t + 60))).length
          < REQUESTS_PER_MINUTE ∧ s.daily_requests < REQUESTS_PER_DAY := by
      simpa [get_rate_limit_status, Bool.and_eq_true] using hcan
    have h1 : (rolled s now).daily_requests < REQUESTS_PER_DAY := by
      rw [hr]; exact hconds.2
    have h2 : (pruneTimes s.request_times now).length < REQUESTS_PER_MINUTE := hconds.1
    rw [checkAndReserve_admitted s now t2 h1 h2]
  · intro hadm
    rcases checkAndReserve_cases s now t2 with ⟨_, heq⟩ | ⟨_, _, heq⟩ | ⟨h1, h2, heq⟩
    · rw [heq] at hadm; simp at hadm
    · rw [heq] at hadm; simp at hadm
    · rw [hr] at h1
      simp only [get_rate_limit_status, Bool.and_eq_true, decide_eq_true_eq]
      exact ⟨h2, h1⟩

/-- Witness for C5: on a fresh service at `now = 30` the snapshot says a
request can be made, and the real check is indeed admitted. -/
theorem status_matches_check_witness :
    ((get_rate_limit_status (initState 0) 30).can_make_request = true
      ↔ (checkAndReserve (initState 0) 30 30).2 = .admitted) ∧
    (get_rate_limit_status (initState 0) 30).can_make_request
      = (decide ((get_rate_limit_status (initState 0) 30).requests_per_minute_used
            < (get_rate_limit_status (initState 0) 30).requests_per_minute_limit)
        && decide ((get_rate_limit_status (initState 0) 30).daily_requests_used
            < (get_rate_limit_status (initState 0) 30).daily_requests_limit)) :=
  status_matches_check (initState 0) 30 30 (by decide)

/-- C9: when admission is denied, `analyze_design_changes` does not reach
the external call at all (the `outcome` is irrelevant) and returns an
`AnalysisResponse` with `success = False`, the denial reason string in the
`error` field, and the zeroed `AnalysisData` payload (similarity 0, empty
summary strings, empty change/notes/steps lists), so a denial is
distinguishable from a successful analysis only via `success` and `error`. -/
theorem denial_response (s : GateState) (t1 t2 t3 : Nat) (o : ApiOutcome)
    (msg : String) (h : (check_rate_limit s t1).2.2 = some msg) :
    (analyze_design_changes s t1 t2 t3 o).2
      = { success := false, timestamp := t2, data := zeroAnalysisData,
          error := some msg } := by
  rcases check_rate_limit_cases s t1 with ⟨_, heq⟩ | ⟨_, _, heq⟩ | ⟨_, _, heq⟩
  · have hmsg : dailyLimitMsg = msg := by
      have := h
      rw [heq] at this
      simpa using this
    simp [analyze_design_changes, heq, hmsg]
  · have hmsg : minuteLimitMsg = msg := by
      have := h
      rw [heq] at this
      simpa using this
    simp [analyze_design_changes, heq, hmsg]
  · rw [heq] at h
    simp at h

/-- Witness for C9: a daily-exhausted service denies and hands back the
zeroed payload with the daily reason, never consulting the (failing)
external outcome. -/
theorem denial_response_witness :
    (analyze_design_changes ⟨[], 1500, 0⟩ 0 1 2 (.otherError "boom")).2
      = { success := false, timestamp := 1, data := zeroAnalysisData,
          error := some dailyLimitMsg } :=
  denial_response ⟨[], 1500, 0⟩ 0 1 2 (.otherError "boom") dailyLimitMsg (by decide)

/-- C10: once a call is admitted the reservation is never rolled back —
whatever the external call's fate (successful parse, `JSONDecodeError`, or
any other exception), the state after `analyze_design_changes` is exactly
the checked state with `t2` appended to `requestTimestamps` and
`dailyCount` incremented; in particular the appended timestamp persists. -/
theorem admitted_no_rollback (s : GateState) (t1 t2 t3 : Nat) (o : ApiOutcome)
    (h : (check_rate_limit s t1).2.1 = true) :
    (analyze_design_changes s t1 t2 t3 o).1
      = { (check_rate_limit s t1).1 with
          request_times := (check_rate_limit s t1).1.request_times ++ [t2],
          daily_requests := (check_rate_limit s t1).1.daily_requests + 1 } ∧
    t2 ∈ (analyze_design_changes s t1 t2 t3 o).1.request_times := by
  rcases check_rate_limit_cases s t1 with ⟨_, heq⟩ | ⟨_, _, heq⟩ | ⟨_, _, heq⟩
  · rw [heq] at h; simp at h
  · rw [heq] at h; simp at h
  · constructor
    · rcases o with d | m | m <;> simp [analyze_design_changes, heq]
    · rcases o with d | m | m <;> simp [analyze_design_changes, heq]

/-- Witness for C10: a fresh service admits; even when the external reply
fails to parse as JSON, the reserved timestamp 1 and the incremented daily
count persist in the state. -/
theorem admitted_no_rollback_witness :
    (analyze_design_changes (initState 0) 0 1 2 (.jsonError "bad")).1
      = { (check_rate_limit (initState 0) 0).1 with
          request_times := (check_rate_limit (initState 0) 0).1.request_times ++ [1],
          daily_requests := (check_rate_limit (initState 0) 0).1.daily_requests + 1 } ∧
    1 ∈ (analyze_design_changes (initState 0) 0 1 2 (.jsonError "bad")).1.request_times :=
  admitted_no_rollback (initState 0) 0 1 2 (.jsonError "bad") (by decide)

end Gemini
